import Mathlib

/-!
Verification of the recall-ai content-normalization and flash-card
generation pipeline (`src/core.py`) against its natural-language
specification.

The Python code is shallowly embedded: each strategy's `_process` method
becomes a pure Lean function from the strategy's inputs (including the
responses of the external OCR / transcription / PDF / crawler / generation
services, which the spec treats as opaque collaborators) to
`Except Err String`.  Python `raise ValueError(...)` sites are tagged with
the spec's error taxonomy (`ValidationError`, `InputError`,
`ConfigurationError`, `NoContentError`, `GenerationError`); a Python-level
runtime crash that is none of these (e.g. `UnboundLocalError`) is
modelled by the extra constructor `Err.runtimeError`.
-/

/-- Whitespace characters recognised by Python `str.split()` (no
separator argument): runs of whitespace separate words and empty strings
never appear in the result. -/
def isWS (c : Char) : Bool :=
  c = ' ' || c = '\t' || c = '\n' || c = '\r' || c = '\x0b' || c = '\x0c'

/-- Accumulator-based splitter over a character list: `acc` holds the
(reversed) characters of the word currently being read. -/
def splitWSAux (cs : List Char) (acc : List Char) : List (List Char) :=
  match cs with
  | [] => if acc = [] then [] else [acc.reverse]
  | c :: rest =>
    if isWS c then
      if acc = [] then splitWSAux rest []
      else acc.reverse :: splitWSAux rest []
    else
      splitWSAux rest (c :: acc)

/-- Embedding of Python `s.split()` at the character-list level. -/
def splitWS (cs : List Char) : List (List Char) :=
  splitWSAux cs []

/-- Embedding of Python `s.split()`: list of whitespace-separated words. -/
def pySplit (s : String) : List String :=
  (splitWS s.data).map String.mk

/-- Word count of a string, i.e. `len(s.split())` in the Python source. -/
def wordCount (s : String) : Nat :=
  (pySplit s).length

/-- Embedding of Python `' '.join(ws)` at the character-list level. -/
def joinSp : List (List Char) → List Char
  | [] => []
  | [w] => w
  | w :: ws => w ++ ' ' :: joinSp ws

/-- Embedding of Python `' '.join(ws)`. -/
def pyJoinSpace (ws : List String) : String :=
  String.mk (joinSp (ws.map String.data))

/-- Embedding of Python `''.join(ss)`. -/
def pyConcat (ss : List String) : String :=
  String.mk ((ss.map String.data).flatten)

/-- The spec's error taxonomy (§7).  In the Python source every failure is
a `ValueError` (or an `assert`); each raise site is tagged here with the
kind the spec assigns to it, keeping the exact message.  `runtimeError`
stands for an untyped Python runtime exception that belongs to no kind of
the taxonomy. -/
inductive Err where
  | validationError (msg : String)
  | inputError (msg : String)
  | configurationError (msg : String)
  | noContentError (msg : String)
  | generationError (msg : String)
  | runtimeError (msg : String)
deriving DecidableEq, Repr

/-- Message of `raise ValueError("Text input is too short. ...")`. -/
def tooShortMsg : String := "Text input is too short. Please provide a longer text."

/-- Message of `raise ValueError("Text input is too long. ...")`. -/
def tooLongMsg : String := "Text input is too long. Please provide a shorter text."

/-- Message of the audio strategy's language rejection. -/
def notEnglishMsg : String := "Audio input is not in English. Please provide an English audio file."

/-- The Python runtime error produced by `return combined_text` in
`ProcessPDF._process` when `combined_text` was never assigned. -/
def unboundCombinedMsg : String :=
  "UnboundLocalError: local variable combined_text referenced before assignment"

/-- `ProcessTextInput._process(min_length, max_length)` (core.py:20-27):
reject fewer than `min_length` or more than `max_length` words, otherwise
return the text unchanged.  The Python defaults are `30` and `2000`;
call sites pass them explicitly here. -/
def ProcessTextInput_process (text : String) (min_length max_length : Nat) :
    Except Err String :=
  if wordCount text < min_length then
    .error (.validationError tooShortMsg)
  else if wordCount text > max_length then
    .error (.validationError tooLongMsg)
  else
    .ok text

/-- `ProcessImageInput._process` (core.py:46-72), as a function of the
text returned by the external OCR/vision service: reject fewer than 10
words, otherwise return the extracted text. -/
def ProcessImageInput_process (text : String) : Except Err String :=
  if wordCount text < 10 then
    .error (.validationError tooShortMsg)
  else
    .ok text

/-- Response of the external transcription model: extracted text plus the
detected language (`transcript["text"]`, `transcript["language"]`). -/
structure Transcript where
  text : String
  language : String
deriving DecidableEq, Repr

/-- `ProcessAudioInput._process` (core.py:88-98), as a function of the
transcription model's response: reject fewer than 10 words, then reject a
detected language other than `"en"`, otherwise return the transcript. -/
def ProcessAudioInput_process (t : Transcript) : Except Err String :=
  if wordCount t.text < 10 then
    .error (.validationError tooShortMsg)
  else if t.language ≠ "en" then
    .error (.validationError notEnglishMsg)
  else
    .ok t.text

/-- `ProcessPDF._process` (core.py:110-128), as a function of the per-page
text returned by the PDF library.  Faithful to the source's control flow:
`combined_text` is assigned only in the multi-page branch, so a
single-page document of at least 10 words (and a zero-page document)
reaches `return combined_text` with the variable unbound and crashes with
`UnboundLocalError`. -/
def ProcessPDF_process (page_content : List String) : Except Err String :=
  if page_content.length = 1 then
    if wordCount (page_content.headD "") < 10 then
      .error (.validationError tooShortMsg)
    else
      .error (.runtimeError unboundCombinedMsg)
  else if page_content.length > 1 then
    let combined_text := pyConcat page_content
    if wordCount combined_text > 4000 then
      .ok (pyJoinSpace ((pySplit combined_text).take 4000))
    else
      .ok combined_text
  else
    .error (.runtimeError unboundCombinedMsg)

/-- `ProcessTopic._process` (core.py:176-191), as a function of the text
returned by the generation service for the topic essay: reject fewer than
10 or more than 2000 words, otherwise return the text. -/
def ProcessTopic_process (text : String) : Except Err String :=
  if wordCount text < 10 then
    .error (.validationError tooShortMsg)
  else if wordCount text > 2000 then
    .error (.validationError tooLongMsg)
  else
    .ok text

/-- `ProcessUserBackground._process` (core.py:210-225), as a function of
the text returned by the generation service for the user-bio study
content: reject fewer than 10 or more than 2000 words, otherwise return
the text. -/
def ProcessUserBackground_process (text : String) : Except Err String :=
  if wordCount text < 10 then
    .error (.validationError tooShortMsg)
  else if wordCount text > 2000 then
    .error (.validationError tooLongMsg)
  else
    .ok text

/-- A JSON value, the result of Python `json.loads` on the generation
service's response (numbers restricted to integers, which is all the
declared schema uses). -/
inductive JsonVal where
  | null
  | bool (b : Bool)
  | num (n : Int)
  | str (s : String)
  | arr (elems : List JsonVal)
  | obj (fields : List (String × JsonVal))

/-- First value bound to `key` in a JSON object's field list. -/
def lookupField : List (String × JsonVal) → String → Option JsonVal
  | [], _ => none
  | (k, v) :: rest, key => if k = key then some v else lookupField rest key

/-- Field access on a JSON object; `none` on non-objects and missing keys. -/
def jsonField : JsonVal → String → Option JsonVal
  | .obj fields, key => lookupField fields key
  | _, _ => none

/-- The value is a JSON string. -/
def isStr : JsonVal → Bool
  | .str _ => true
  | _ => false

/-- The value is a JSON integer. -/
def isInt : JsonVal → Bool
  | .num _ => true
  | _ => false

/-- The value is a JSON string or null (pydantic `Optional[str]`). -/
def isOptStr : JsonVal → Bool
  | .str _ => true
  | .null => true
  | _ => false

/-- Shape of one card per the `FlashCard` pydantic model declared inside
`FlashCardGenerator._generate` (core.py:276-280): question and answer
strings, optional category string, integer importance. -/
def isFlashCard (v : JsonVal) : Bool :=
  match jsonField v "question", jsonField v "answer",
        jsonField v "category", jsonField v "importance" with
  | some q, some a, some c, some i => isStr q && isStr a && isOptStr c && isInt i
  | _, _, _, _ => false

/-- Shape of a card set per the `FlashCardSet` pydantic model declared
inside `FlashCardGenerator._generate` (core.py:282-287) and the spec's
schema contract: title, subject, cards list, total_cards,
difficulty_level.  The spec requires the parsed response to match this
shape; this predicate states that requirement for comparison with what
the code actually checks. -/
def isFlashCardSetShape (v : JsonVal) : Bool :=
  match jsonField v "title", jsonField v "subject", jsonField v "cards",
        jsonField v "total_cards", jsonField v "difficulty_level" with
  | some t, some s, some (.arr cards), some tc, some d =>
      isStr t && isStr s && cards.all isFlashCard && isInt tc && isStr d
  | _, _, _, _, _ => false

/-- `FlashCardGenerator._generate` (core.py:302-309), as a function of the
outcome of `json.loads` on the generation service's response text:
`.error e` stands for the parse raising exception message `e`, `.ok v`
for a successful parse producing `v`.  The source wraps any parse failure
in `ValueError(f"Failed to parse response: {e}")` and otherwise returns
the parsed value unchanged — no further validation is performed. -/
def FlashCardGenerator_generate (parsed : Except String JsonVal) :
    Except Err JsonVal :=
  match parsed with
  | .error e => .error (.generationError ("Failed to parse response: " ++ e))
  | .ok v => .ok v

/-- Embedding of Python `s.startswith(pre)`. -/
def pyStartsWith (s pre : String) : Bool :=
  pre.data.isPrefixOf s.data

/-- Embedding of Python `s.endswith(suf)`. -/
def pyEndsWith (s suf : String) : Bool :=
  suf.data.isSuffixOf s.data

/-- The `UserBio` pydantic model (core.py:194-200). -/
structure UserBio where
  name : String
  age : Int
  degree_name : String
  degree_year : Int
  course_name : String
  interested_subjects : List String

/-- The keyword-argument bag accepted by
`ContentProcessorFactory.create_processor`; absent string arguments
default to `""` via `kwargs.get(..., "")` in the source, and an absent
`user_bio` is `none`. -/
structure Kwargs where
  text : String
  image_path : String
  audio_path : String
  pdf_path : String
  link : String
  topic : String
  user_bio : Option UserBio

/-- A constructed strategy object, one variant per processor class. -/
inductive Processor where
  | text (t : String)
  | image (path : String)
  | audio (path : String)
  | pdf (path : String)
  | link (url : String)
  | topic (t : String)
  | userBio (bio : UserBio)

/-- `ContentProcessorFactory.create_processor` (core.py:316-343) together
with each strategy's constructor checks.  `fs` models `os.path.exists`.
Failed constructor `assert`s (bad path, bad extension, empty text/topic)
are the spec's `InputError`; the explicit `user_bio` isinstance check,
which rejects a missing or mistyped parameter, is likewise `InputError`;
the final `else` branch is the spec's `ConfigurationError`. -/
def create_processor (fs : String → Bool) (input_type : String) (kw : Kwargs) :
    Except Err Processor :=
  if input_type = "text" then
    if kw.text = "" then .error (.inputError "Text input cannot be empty.")
    else .ok (.text kw.text)
  else if input_type = "image" then
    if fs kw.image_path = false then
      .error (.inputError "Image path does not exist.")
    else if !(pyEndsWith kw.image_path ".png" || pyEndsWith kw.image_path ".jpeg") then
      .error (.inputError "Image path must be a .png, or .jpeg file.")
    else .ok (.image kw.image_path)
  else if input_type = "audio" then
    if fs kw.audio_path = false then
      .error (.inputError "Audio path does not exist.")
    else if !(pyEndsWith kw.audio_path ".mp3" || pyEndsWith kw.audio_path ".wav") then
      .error (.inputError "Audio path must be a .mp3, or .wav file.")
    else .ok (.audio kw.audio_path)
  else if input_type = "pdf" then
    if fs kw.pdf_path = false then
      .error (.inputError "PDF path does not exist.")
    else if !pyEndsWith kw.pdf_path ".pdf" then
      .error (.inputError "PDF path must be a .pdf file.")
    else .ok (.pdf kw.pdf_path)
  else if input_type = "link" then
    if !pyStartsWith kw.link "http" then
      .error (.inputError "Link must start with http.")
    else .ok (.link kw.link)
  else if input_type = "topic" then
    if kw.topic = "" then .error (.inputError "Topic cannot be empty.")
    else .ok (.topic kw.topic)
  else if input_type = "user_bio" then
    match kw.user_bio with
    | none => .error (.inputError "user_bio must be an instance of UserBio")
    | some bio => .ok (.userBio bio)
  else
    .error (.configurationError ("Unknown input type: " ++ input_type))

/-- One entry of the crawler's per-URL result list (`res.success`,
`res.markdown`, `res.error`). -/
structure CrawlResult where
  success : Bool
  markdown : String
  errMsg : String

/-- `ProcessLink._process` (core.py:139-161), as a function of the
crawler's result list for the single requested URL.  Faithful to the
source's control flow: `return content` sits inside the `for` loop, so
the function returns after examining the first result only (appending its
markdown on success, logging and skipping it on failure); with an empty
result list the loop never runs and the coroutine returns `None`. -/
def ProcessLink_process (results : List CrawlResult) : Option (List String) :=
  match results with
  | [] => none
  | r :: _ => if r.success then some [r.markdown] else some []

/-- The link arm of `ContentProcessorFactory.process_content`
(core.py:350-353): `"\n\n".join(content) if content else ""`, where both
`None` and the empty list are falsy. -/
def linkContent (results : List CrawlResult) : String :=
  match ProcessLink_process results with
  | none => ""
  | some cs => if cs = [] then "" else String.intercalate "\n\n" cs

/-- The opaque external collaborators a single request observes: the
filesystem, the OCR text for the image, the transcription result, the
per-page PDF text, the crawler's results, and the generation-service
texts for the topic and user-bio strategies. -/
structure World where
  fs : String → Bool
  image_text : String
  audio_transcript : Transcript
  pdf_pages : List String
  crawl : List CrawlResult
  topic_text : String
  bio_text : String

/-- `ContentProcessorFactory.process_content` (core.py:345-356):
construct the processor for the tag, then run it — joining the crawler
results for the link strategy and calling `_process()` for all others
(constructor tags biject with input-type tags, so dispatching on the
constructed processor is the source's `input_type == "link"` test). -/
def process_content (w : World) (input_type : String) (kw : Kwargs) :
    Except Err String :=
  match create_processor w.fs input_type kw with
  | .error e => .error e
  | .ok (.text t) => ProcessTextInput_process t 30 2000
  | .ok (.image _) => ProcessImageInput_process w.image_text
  | .ok (.audio _) => ProcessAudioInput_process w.audio_transcript
  | .ok (.pdf _) => ProcessPDF_process w.pdf_pages
  | .ok (.link _) => .ok (linkContent w.crawl)
  | .ok (.topic _) => ProcessTopic_process w.topic_text
  | .ok (.userBio _) => ProcessUserBackground_process w.bio_text

/-- `FlashCardService.generate_from_input` (core.py:366-381): extract
content, raise `ValueError("Failed to process ... no content was
extracted")` — the spec's `NoContentError` — when it is empty (Python
falsiness of `""`), and otherwise invoke the generator, whose `json.loads`
outcome is `gen`. -/
def generate_from_input (w : World) (gen : Except String JsonVal)
    (input_type : String) (kw : Kwargs) : Except Err JsonVal :=
  match process_content w input_type kw with
  | .error e => .error e
  | .ok content =>
    if content = "" then
      .error (.noContentError
        ("Failed to process " ++ input_type ++ " input or no content was extracted"))
    else
      FlashCardGenerator_generate gen

/-- `n` copies of the word `a`, separated by single spaces: a convenient
concrete text of exactly `n` words. -/
def aChars : Nat → List Char
  | 0 => []
  | 1 => ['a']
  | n + 2 => 'a' :: ' ' :: aChars (n + 1)

@[simp] lemma data_mk (l : List Char) : (String.mk l).data = l := rfl

@[simp] lemma mk_data (s : String) : String.mk s.data = s := rfl

lemma splitWSAux_noWS (w : List Char) (hw : ∀ c ∈ w, isWS c = false) :
    ∀ cs acc, splitWSAux (w ++ cs) acc = splitWSAux cs (w.reverse ++ acc) := by
  induction w with
  | nil => intro cs acc; simp
  | cons c w ih =>
    intro cs acc
    have hc : isWS c = false := hw c (by simp)
    have hw' : ∀ d ∈ w, isWS d = false := fun d hd => hw d (by simp [hd])
    simp only [List.cons_append, splitWSAux, hc, Bool.false_eq_true, if_false]
    rw [show w.append cs = w ++ cs from rfl, ih hw' cs (c :: acc)]
    simp [List.reverse_cons, List.append_assoc]

lemma splitWSAux_good (cs : List Char) :
    ∀ acc, (∀ c ∈ acc, isWS c = false) →
      ∀ w ∈ splitWSAux cs acc, w ≠ [] ∧ ∀ c ∈ w, isWS c = false := by
  induction cs with
  | nil =>
    intro acc hacc w hw
    by_cases h : acc = []
    · simp [splitWSAux, h] at hw
    · simp [splitWSAux, h] at hw
      subst hw
      refine ⟨by simpa using h, fun c hc => hacc c (by simpa using hc)⟩
  | cons c cs ih =>
    intro acc hacc w hw
    by_cases hws : isWS c
    · by_cases h : acc = []
      · simp only [splitWSAux, hws, if_true, h] at hw
        exact ih [] (by simp) w (by simpa using hw)
      · simp only [splitWSAux, hws, if_true, h, if_false, List.mem_cons] at hw
        rcases hw with rfl | hw
        · refine ⟨by simpa using h, fun d hd => hacc d (by simpa using hd)⟩
        · exact ih [] (by simp) w hw
    · simp only [splitWSAux, hws, Bool.false_eq_true, if_false] at hw
      refine ih (c :: acc) ?_ w hw
      intro d hd
      rcases List.mem_cons.mp hd with rfl | hd
      · simpa using hws
      · exact hacc d hd

lemma splitWS_good (cs : List Char) :
    ∀ w ∈ splitWS cs, w ≠ [] ∧ ∀ c ∈ w, isWS c = false :=
  splitWSAux_good cs [] (by simp)

lemma splitWS_joinSp :
    ∀ ws : List (List Char),
      (∀ w ∈ ws, w ≠ [] ∧ ∀ c ∈ w, isWS c = false) →
      splitWS (joinSp ws) = ws
  | [], _ => rfl
  | [w], h => by
    obtain ⟨hne, hgood⟩ := h w (by simp)
    have := splitWSAux_noWS w hgood [] []
    simp only [List.append_nil] at this
    simp only [splitWS, joinSp, this, splitWSAux]
    simp [hne]
  | w :: w' :: ws, h => by
    obtain ⟨hne, hgood⟩ := h w (by simp)
    have hrest : ∀ u ∈ w' :: ws, u ≠ [] ∧ ∀ c ∈ u, isWS c = false :=
      fun u hu => h u (by simp [List.mem_cons] at hu ⊢; tauto)
    have ih := splitWS_joinSp (w' :: ws) hrest
    have step := splitWSAux_noWS w hgood (' ' :: joinSp (w' :: ws)) []
    simp only [List.append_nil] at step
    have hrev : w.reverse ≠ [] := by simpa using hne
    simp only [splitWS, joinSp, step, splitWSAux, isWS, if_true]
    simp only [splitWS] at ih
    simp [hrev, ih]

lemma aChars_eq_joinSp :
    ∀ n, aChars n = joinSp (List.replicate n (['a'] : List Char))
  | 0 => rfl
  | 1 => rfl
  | n + 2 => by
    have ih := aChars_eq_joinSp (n + 1)
    have h2 : List.replicate (n + 1) (['a'] : List Char) =
        ['a'] :: List.replicate n ['a'] := by
      simp [List.replicate_succ]
    have h1 : List.replicate (n + 2) (['a'] : List Char) =
        ['a'] :: ['a'] :: List.replicate n ['a'] := by
      simp [List.replicate_succ]
    rw [h1]
    show 'a' :: ' ' :: aChars (n + 1) =
      ['a'] ++ ' ' :: joinSp (['a'] :: List.replicate n ['a'])
    rw [ih, h2]
    rfl

lemma good_replicate_a (n : Nat) :
    ∀ w ∈ List.replicate n (['a'] : List Char), w ≠ [] ∧ ∀ c ∈ w, isWS c = false := by
  intro w hw
  have := List.eq_of_mem_replicate hw
  subst this
  refine ⟨by simp, ?_⟩
  intro c hc
  simp at hc
  subst hc
  decide

lemma splitWS_aChars (n : Nat) :
    splitWS (aChars n) = List.replicate n (['a'] : List Char) := by
  rw [aChars_eq_joinSp]
  exact splitWS_joinSp _ (good_replicate_a n)

lemma wordCount_mk_aChars (n : Nat) : wordCount (String.mk (aChars n)) = n := by
  simp [wordCount, pySplit, splitWS_aChars]

lemma aChars_snoc : ∀ n, 1 ≤ n → aChars (n + 1) = aChars n ++ [' ', 'a']
  | 1, _ => rfl
  | n + 2, _ => by
    have ih := aChars_snoc (n + 1) (by omega)
    show 'a' :: ' ' :: aChars (n + 2) = ('a' :: ' ' :: aChars (n + 1)) ++ [' ', 'a']
    rw [ih]
    simp

lemma map_data_pySplit_take (c : String) (n : Nat) :
    ((pySplit c).take n).map String.data = (splitWS c.data).take n := by
  simp only [pySplit]
  rw [← List.map_take, List.map_map]
  have hid : (String.data ∘ String.mk) = id := funext fun l => rfl
  rw [hid, List.map_id]

lemma pyJoinSpace_pySplit_take (c : String) (n : Nat) :
    pyJoinSpace ((pySplit c).take n) = String.mk (joinSp ((splitWS c.data).take n)) := by
  rw [pyJoinSpace, map_data_pySplit_take]

lemma pySplit_trunc (c : String) (n : Nat) :
    pySplit (pyJoinSpace ((pySplit c).take n)) = (pySplit c).take n := by
  rw [pyJoinSpace_pySplit_take]
  have goodT : ∀ w ∈ (splitWS c.data).take n, w ≠ [] ∧ ∀ ch ∈ w, isWS ch = false :=
    fun w hw => splitWS_good c.data w (List.take_subset n _ hw)
  simp only [pySplit, data_mk]
  rw [splitWS_joinSp _ goodT, List.map_take]

lemma wordCount_trunc (c : String) (n : Nat) :
    wordCount (pyJoinSpace ((pySplit c).take n)) = min n (wordCount c) := by
  rw [wordCount, pySplit_trunc]
  simp [wordCount, List.length_take]

/-- The outcome is a `ValidationError` (with whatever message). -/
def isValidationError : Except Err String → Bool
  | .error (.validationError _) => true
  | _ => false

/-- Claim C5: for every text input whose word count lies in [30, 2000],
`ProcessTextInput._process` (at its default bounds 30 and 2000) returns
the input text unchanged; for every word count outside that range it
fails with `ValidationError`. -/
theorem text_process_in_range_iff_valid (text : String) :
    (30 ≤ wordCount text → wordCount text ≤ 2000 →
        ProcessTextInput_process text 30 2000 = .ok text)
    ∧ (wordCount text < 30 ∨ 2000 < wordCount text →
        isValidationError (ProcessTextInput_process text 30 2000) = true) := by
  constructor
  · intro h1 h2
    unfold ProcessTextInput_process
    rw [if_neg (by omega), if_neg (by omega)]
  · rintro (h | h)
    · unfold ProcessTextInput_process
      rw [if_pos h]
      rfl
    · unfold ProcessTextInput_process
      rw [if_neg (by omega), if_pos (by omega)]
      rfl

/-- Witness for C5: a 30-word text is returned unchanged and a 3-word
text is rejected with a `ValidationError`. -/
theorem text_process_in_range_iff_valid_witness :
    ProcessTextInput_process (String.mk (aChars 30)) 30 2000 = .ok (String.mk (aChars 30))
    ∧ isValidationError (ProcessTextInput_process (String.mk (aChars 3)) 30 2000) = true := by
  constructor
  · exact (text_process_in_range_iff_valid (String.mk (aChars 30))).1
      (by rw [wordCount_mk_aChars]) (by rw [wordCount_mk_aChars]; omega)
  · exact (text_process_in_range_iff_valid (String.mk (aChars 3))).2
      (Or.inl (by rw [wordCount_mk_aChars]; omega))

/-- Claim C9: for every transcription result whose detected language is
not `"en"`, `ProcessAudioInput._process` fails with `ValidationError`,
regardless of the transcript's word count (the short-transcript rejection
and the language rejection are both `ValidationError`s). -/
theorem audio_non_english_always_validation_error (t : Transcript)
    (h : t.language ≠ "en") :
    isValidationError (ProcessAudioInput_process t) = true := by
  unfold ProcessAudioInput_process
  by_cases hw : wordCount t.text < 10
  · rw [if_pos hw]; rfl
  · rw [if_neg hw, if_pos h]; rfl

/-- Witness for C9: a one-word French transcript fails with a
`ValidationError`. -/
theorem audio_non_english_always_validation_error_witness :
    isValidationError (ProcessAudioInput_process ⟨"x", "fr"⟩) = true :=
  audio_non_english_always_validation_error ⟨"x", "fr"⟩ (by decide)

/-- Claim C10: `ProcessAudioInput._process` checks transcript length
before language: a transcript of fewer than 10 words always produces the
too-short `ValidationError`, whatever the detected language; the
not-English error can only be produced for transcripts of at least 10
words in a language other than `"en"`. -/
theorem audio_length_check_precedes_language_check (t : Transcript) :
    (wordCount t.text < 10 →
        ProcessAudioInput_process t = .error (.validationError tooShortMsg))
    ∧ (ProcessAudioInput_process t = .error (.validationError notEnglishMsg) →
        10 ≤ wordCount t.text ∧ t.language ≠ "en") := by
  constructor
  · intro h
    unfold ProcessAudioInput_process
    rw [if_pos h]
  · intro h
    unfold ProcessAudioInput_process at h
    by_cases hw : wordCount t.text < 10
    · rw [if_pos hw] at h
      simp [tooShortMsg, notEnglishMsg] at h
    · by_cases hl : t.language ≠ "en"
      · exact ⟨Nat.not_lt.mp hw, hl⟩
      · rw [if_neg hw, if_neg hl] at h
        exact absurd h (by simp)

/-- Witness for C10: a 2-word French transcript produces the too-short
error (not the language error), and a 10-word French transcript does
produce the language error, confirming the order of the checks. -/
theorem audio_length_check_precedes_language_check_witness :
    ProcessAudioInput_process ⟨"hi there", "fr"⟩ = .error (.validationError tooShortMsg)
    ∧ (10 ≤ wordCount (String.mk (aChars 10)) ∧ ("fr" : String) ≠ "en") := by
  constructor
  · exact (audio_length_check_precedes_language_check ⟨"hi there", "fr"⟩).1 (by decide)
  · refine (audio_length_check_precedes_language_check
      ⟨String.mk (aChars 10), "fr"⟩).2 ?_
    unfold ProcessAudioInput_process
    rw [if_neg (by rw [wordCount_mk_aChars]; omega)]
    rw [if_pos (by decide)]

/-- Counterexample to claim C8 as stated: a 10-word audio transcript is
not returned — with detected language `"fr"` the extraction fails with
the not-English `ValidationError`, although the claim promises success
for any extraction result of 10 or more words. -/
theorem audio_ten_words_non_english_fails :
    10 ≤ wordCount (String.mk (aChars 10)) ∧
    ProcessAudioInput_process ⟨String.mk (aChars 10), "fr"⟩ =
      .error (.validationError notEnglishMsg) := by
  constructor
  · rw [wordCount_mk_aChars]
  · unfold ProcessAudioInput_process
    rw [if_neg (by rw [wordCount_mk_aChars]; omega), if_pos (by decide)]

/-- Claim C8, amended: for image, audio, topic and user_bio extraction
results, a text under 10 words fails with the too-short
`ValidationError`; a text of 10 or more words (at most 2000 for topic and
user_bio) makes extraction succeed and return that text — except that for
audio, success additionally requires the detected language to be
`"en"`. -/
theorem word_bounds_validation_per_kind :
    (∀ s : String,
        (wordCount s < 10 →
            ProcessImageInput_process s = .error (.validationError tooShortMsg))
        ∧ (10 ≤ wordCount s → ProcessImageInput_process s = .ok s))
    ∧ (∀ t : Transcript,
        (wordCount t.text < 10 →
            ProcessAudioInput_process t = .error (.validationError tooShortMsg))
        ∧ (10 ≤ wordCount t.text → t.language = "en" →
            ProcessAudioInput_process t = .ok t.text))
    ∧ (∀ s : String,
        (wordCount s < 10 →
            ProcessTopic_process s = .error (.validationError tooShortMsg))
        ∧ (10 ≤ wordCount s → wordCount s ≤ 2000 →
            ProcessTopic_process s = .ok s))
    ∧ (∀ s : String,
        (wordCount s < 10 →
            ProcessUserBackground_process s = .error (.validationError tooShortMsg))
        ∧ (10 ≤ wordCount s → wordCount s ≤ 2000 →
            ProcessUserBackground_process s = .ok s)) := by
  refine ⟨fun s => ⟨?_, ?_⟩, fun t => ⟨?_, ?_⟩, fun s => ⟨?_, ?_⟩, fun s => ⟨?_, ?_⟩⟩
  · intro h; unfold ProcessImageInput_process; rw [if_pos h]
  · intro h; unfold ProcessImageInput_process; rw [if_neg (by omega)]
  · intro h; unfold ProcessAudioInput_process; rw [if_pos h]
  · intro h hl
    unfold ProcessAudioInput_process
    rw [if_neg (by omega), if_neg (by simp [hl])]
  · intro h; unfold ProcessTopic_process; rw [if_pos h]
  · intro h1 h2
    unfold ProcessTopic_process
    rw [if_neg (by omega), if_neg (by omega)]
  · intro h; unfold ProcessUserBackground_process; rw [if_pos h]
  · intro h1 h2
    unfold ProcessUserBackground_process
    rw [if_neg (by omega), if_neg (by omega)]

/-- Witness for the amended C8: each of the four kinds at a 10-word text
(English for audio) succeeds, and each fails on a 2-word text. -/
theorem word_bounds_validation_per_kind_witness :
    ProcessImageInput_process (String.mk (aChars 10)) = .ok (String.mk (aChars 10))
    ∧ ProcessImageInput_process "w x" = .error (.validationError tooShortMsg)
    ∧ ProcessAudioInput_process ⟨String.mk (aChars 10), "en"⟩ = .ok (String.mk (aChars 10))
    ∧ ProcessTopic_process (String.mk (aChars 10)) = .ok (String.mk (aChars 10))
    ∧ ProcessUserBackground_process (String.mk (aChars 10)) = .ok (String.mk (aChars 10)) := by
  have h10 : 10 ≤ wordCount (String.mk (aChars 10)) := by rw [wordCount_mk_aChars]
  have h2000 : wordCount (String.mk (aChars 10)) ≤ 2000 := by rw [wordCount_mk_aChars]; omega
  refine ⟨(word_bounds_validation_per_kind.1 (String.mk (aChars 10))).2 h10,
    (word_bounds_validation_per_kind.1 "w x").1 (by decide),
    (word_bounds_validation_per_kind.2.1 ⟨String.mk (aChars 10), "en"⟩).2 h10 rfl,
    (word_bounds_validation_per_kind.2.2.1 (String.mk (aChars 10))).2 h10 h2000,
    (word_bounds_validation_per_kind.2.2.2 (String.mk (aChars 10))).2 h10 h2000⟩

/-- Counterexample to claim C3 as stated: the response `{}` is valid JSON
but does not match the FlashCardSet shape, yet
`FlashCardGenerator._generate` does not fail — it returns the parsed
empty object.  So failure is not equivalent to (invalid JSON or shape
mismatch). -/
theorem generate_succeeds_on_shape_mismatch_json :
    isFlashCardSetShape (JsonVal.obj []) = false ∧
    FlashCardGenerator_generate (Except.ok (JsonVal.obj [])) =
      Except.ok (JsonVal.obj []) :=
  ⟨rfl, rfl⟩

/-- Claim C3, amended: `FlashCardGenerator._generate` fails with
`GenerationError` (wrapping the underlying parse error) if and only if
the response is not valid JSON; conformance to the FlashCardSet shape is
not checked, and a shape-mismatched parse is returned as-is.  When it
fails, no FlashCardSet (partial or otherwise) is returned — the error
carries only the message. -/
theorem generate_fails_iff_json_parse_fails (r : Except String JsonVal) :
    (∀ e, r = .error e →
        FlashCardGenerator_generate r =
          .error (.generationError ("Failed to parse response: " ++ e)))
    ∧ (∀ v, r = .ok v → FlashCardGenerator_generate r = .ok v) := by
  constructor
  · rintro e rfl; rfl
  · rintro v rfl; rfl

/-- Witness for the amended C3: a parse failure with message `boom` is
wrapped in a `GenerationError`, and a successful parse is passed
through. -/
theorem generate_fails_iff_json_parse_fails_witness :
    FlashCardGenerator_generate (Except.error "boom") =
      .error (.generationError ("Failed to parse response: " ++ "boom"))
    ∧ FlashCardGenerator_generate (Except.ok JsonVal.null) = Except.ok JsonVal.null :=
  ⟨(generate_fails_iff_json_parse_fails (Except.error "boom")).1 "boom" rfl,
   (generate_fails_iff_json_parse_fails (Except.ok JsonVal.null)).2 JsonVal.null rfl⟩

/-- A well-formed-looking card set whose `total_cards` field (5) does not
equal the length of its `cards` list (0). -/
def mismatchSet : JsonVal :=
  .obj [("title", .str "t"), ("subject", .str "s"), ("cards", .arr []),
        ("total_cards", .num 5), ("difficulty_level", .str "Beginner")]

/-- Counterexample to claim C4 as stated: `FlashCardGenerator._generate`
succeeds on a response whose `cards` list is empty and whose
`total_cards` is 5, returning it unchanged — no equality between
`total_cards` and the number of cards is validated and no mismatch is
flagged. -/
theorem generate_accepts_total_cards_mismatch :
    FlashCardGenerator_generate (Except.ok mismatchSet) = Except.ok mismatchSet
    ∧ jsonField mismatchSet "cards" = some (.arr [])
    ∧ jsonField mismatchSet "total_cards" = some (.num 5)
    ∧ isFlashCardSetShape mismatchSet = true :=
  ⟨rfl, rfl, rfl, rfl⟩

/-- Claim C4, amended: when `FlashCardGenerator._generate` succeeds it
returns the parsed JSON response unchanged; neither non-emptiness of
`cards` nor the equality of `total_cards` with the number of cards is
validated, and mismatches are not flagged. -/
theorem generate_returns_parsed_response_unchanged (v : JsonVal) :
    FlashCardGenerator_generate (Except.ok v) = Except.ok v := rfl

/-- Claim C7: for every input-type tag outside the closed set of seven
kinds, `ContentProcessorFactory.create_processor` fails with
`ConfigurationError` — an error kind distinct from `ValidationError` and
`InputError` — and never returns a processor (so no empty content can be
silently produced). -/
theorem unknown_input_type_configuration_error (fs : String → Bool)
    (input_type : String) (kw : Kwargs)
    (h : input_type ∉ ["text", "image", "audio", "pdf", "link", "topic", "user_bio"]) :
    create_processor fs input_type kw =
      .error (.configurationError ("Unknown input type: " ++ input_type))
    ∧ (∀ m m' : String, Err.configurationError m ≠ Err.validationError m'
        ∧ Err.configurationError m ≠ Err.inputError m') := by
  constructor
  · simp only [List.mem_cons, List.not_mem_nil, or_false, not_or] at h
    obtain ⟨h1, h2, h3, h4, h5, h6, h7⟩ := h
    unfold create_processor
    rw [if_neg h1, if_neg h2, if_neg h3, if_neg h4, if_neg h5, if_neg h6, if_neg h7]
  · exact fun m m' => ⟨fun hc => (nomatch hc), fun hc => nomatch hc⟩

/-- An empty keyword-argument bag (every `kwargs.get` default). -/
def emptyKwargs : Kwargs := ⟨"", "", "", "", "", "", none⟩

/-- Witness for C7: the unknown tag `video` yields the
`ConfigurationError`. -/
theorem unknown_input_type_configuration_error_witness :
    create_processor (fun _ => false) "video" emptyKwargs =
      .error (.configurationError ("Unknown input type: " ++ "video")) :=
  (unknown_input_type_configuration_error (fun _ => false) "video" emptyKwargs
    (by decide)).1

/-- Claim C1: `ProcessPDF._process` fails with the `ValidationError` of a
too-short text when the document has exactly one page of fewer than 10
words; a multi-page document always succeeds (it is never
length-rejected), and when its concatenated text exceeds 4000 words the
result is that concatenation truncated to exactly the first 4000
words. -/
theorem pdf_short_single_page_and_truncation (pages : List String) :
    (pages.length = 1 → wordCount (pages.headD "") < 10 →
        ProcessPDF_process pages = .error (.validationError tooShortMsg))
    ∧ (1 < pages.length → ∃ t, ProcessPDF_process pages = .ok t)
    ∧ (1 < pages.length → 4000 < wordCount (pyConcat pages) →
        ProcessPDF_process pages =
          .ok (pyJoinSpace ((pySplit (pyConcat pages)).take 4000))
        ∧ pySplit (pyJoinSpace ((pySplit (pyConcat pages)).take 4000)) =
            (pySplit (pyConcat pages)).take 4000
        ∧ wordCount (pyJoinSpace ((pySplit (pyConcat pages)).take 4000)) = 4000) := by
  refine ⟨?_, ?_, ?_⟩
  · intro h1 h2
    unfold ProcessPDF_process
    rw [if_pos h1, if_pos h2]
  · intro h
    have hne : ¬ pages.length = 1 := by omega
    simp only [ProcessPDF_process, hne, if_false, h, if_true, gt_iff_lt]
    by_cases hc : 4000 < wordCount (pyConcat pages)
    · rw [if_pos hc]; exact ⟨_, rfl⟩
    · rw [if_neg hc]; exact ⟨_, rfl⟩
  · intro h hc
    have hne : ¬ pages.length = 1 := by omega
    refine ⟨?_, pySplit_trunc (pyConcat pages) 4000, ?_⟩
    · simp only [ProcessPDF_process, hne, if_false, h, if_true, gt_iff_lt]
      rw [if_pos hc]
    · rw [wordCount_trunc]
      omega

/-- First page of the concrete oversized two-page document: 4000 words. -/
def pageLong : String := String.mk (aChars 4000)

/-- Second page of the concrete oversized two-page document: one more
word (with a leading space so the pages do not merge words when
concatenated). -/
def pageTail : String := String.mk [' ', 'a']

lemma concat_pages : pyConcat [pageLong, pageTail] = String.mk (aChars 4001) := by
  have h := aChars_snoc 4000 (by omega)
  norm_num at h
  simp only [pyConcat, pageLong, pageTail, List.map_cons, List.map_nil, data_mk,
    List.flatten_cons, List.flatten_nil, List.append_nil]
  rw [h]

/-- Witness for C1: a 2-word single-page document is rejected, and a
two-page 4001-word document succeeds with a 4000-word truncation. -/
theorem pdf_short_single_page_and_truncation_witness :
    ProcessPDF_process ["w x"] = .error (.validationError tooShortMsg)
    ∧ ProcessPDF_process [pageLong, pageTail] =
        .ok (pyJoinSpace ((pySplit (pyConcat [pageLong, pageTail])).take 4000))
    ∧ wordCount (pyJoinSpace ((pySplit (pyConcat [pageLong, pageTail])).take 4000)) = 4000 := by
  have hwc : wordCount (pyConcat [pageLong, pageTail]) = 4001 := by
    rw [concat_pages, wordCount_mk_aChars]
  refine ⟨?_, ?_, ?_⟩
  · exact (pdf_short_single_page_and_truncation ["w x"]).1 rfl (by decide)
  · exact ((pdf_short_single_page_and_truncation [pageLong, pageTail]).2.2
      (by simp) (by rw [hwc]; omega)).1
  · exact ((pdf_short_single_page_and_truncation [pageLong, pageTail]).2.2
      (by simp) (by rw [hwc]; omega)).2.2

/-- A single PDF page holding exactly 10 words. -/
def tenWordPage : String := String.mk (aChars 10)

/-- Claim C2 fails on the code: on a single-page PDF whose page text has
10 words (at least 10, so the too-short check passes), `_process` reaches
`return combined_text` with `combined_text` never assigned and crashes
with `UnboundLocalError` — an untyped runtime failure, not one of the
typed errors of the taxonomy, and no text is returned. -/
theorem pdf_single_page_untyped_runtime_error :
    10 ≤ wordCount tenWordPage ∧
    ProcessPDF_process [tenWordPage] = .error (.runtimeError unboundCombinedMsg) := by
  have hwc : wordCount ([tenWordPage].headD "") = 10 := by
    show wordCount tenWordPage = 10
    unfold tenWordPage
    exact wordCount_mk_aChars 10
  constructor
  · unfold tenWordPage
    rw [wordCount_mk_aChars]
  · unfold ProcessPDF_process
    rw [if_pos (by simp), if_neg (by omega)]

/-- Claim C6: whenever content extraction yields empty text, the service
facade fails with the `NoContentError` message, and the generator is
never consulted (the outcome is the same for every generation-service
response `gen`); in particular, for a link input whose single-URL crawl
reports failure, the link strategy does not raise — it yields no
content — and the facade fails with `NoContentError`. -/
theorem empty_extraction_no_content_error (w : World) (gen : Except String JsonVal)
    (input_type : String) (kw : Kwargs) :
    (process_content w input_type kw = .ok "" →
        generate_from_input w gen input_type kw =
          .error (.noContentError
            ("Failed to process " ++ input_type ++ " input or no content was extracted")))
    ∧ (∀ r : CrawlResult, w.crawl = [r] → r.success = false →
        pyStartsWith kw.link "http" = true →
        ProcessLink_process w.crawl = some [] ∧
        generate_from_input w gen "link" kw =
          .error (.noContentError
            ("Failed to process " ++ "link" ++ " input or no content was extracted"))) := by
  constructor
  · intro h
    unfold generate_from_input
    rw [h]
    rfl
  · intro r hcrawl hfail hlink
    have hpl : ProcessLink_process w.crawl = some [] := by
      rw [hcrawl]
      unfold ProcessLink_process
      show (if r.success = true then some [r.markdown] else some []) = some []
      rw [hfail]
      rfl
    refine ⟨hpl, ?_⟩
    have hcp : create_processor w.fs "link" kw = .ok (.link kw.link) := by
      unfold create_processor
      rw [if_neg (by decide), if_neg (by decide), if_neg (by decide),
        if_neg (by decide), if_pos rfl]
      simp [hlink]
    have hpc : process_content w "link" kw = .ok "" := by
      unfold process_content
      rw [hcp]
      show Except.ok (linkContent w.crawl) = .ok ""
      unfold linkContent
      rw [hpl]
      rfl
    unfold generate_from_input
    rw [hpc]
    rfl

/-- The crawler's failure report for the only requested URL. -/
def failCrawl : CrawlResult := ⟨false, "", "crawl failed"⟩

/-- A world whose crawler fails on the only URL. -/
def linkWorld : World := ⟨fun _ => true, "", ⟨"", ""⟩, [], [failCrawl], "", ""⟩

/-- Keyword arguments carrying a well-formed link. -/
def linkKwargs : Kwargs := ⟨"", "", "", "", "https://example.com", "", none⟩

/-- Witness for C6: with the single crawl failing, the link strategy
yields no content and the facade reports `NoContentError`. -/
theorem empty_extraction_no_content_error_witness :
    ProcessLink_process [failCrawl] = some [] ∧
    generate_from_input linkWorld (Except.ok JsonVal.null) "link" linkKwargs =
      .error (.noContentError
        ("Failed to process " ++ "link" ++ " input or no content was extracted")) := by
  have h := (empty_extraction_no_content_error linkWorld (Except.ok JsonVal.null)
      "link" linkKwargs).2 failCrawl rfl rfl (by decide)
  exact ⟨h.1, h.2⟩
